import Mathlib

/-!
Shallow embedding of the Agent-Makr agent runtime:
the MockLLM fallback model invoker and the LangGraph-wired orchestration
loop from agent_demo.py, and the MCP protocol handlers (tool listing,
tool calls, resource reads) from mcp_server_standalone.py.
-/

namespace AgentMakr

/-! ### Python string primitives used by the source -/

/-- Python str.lower() (ASCII case folding, as used on the inputs here). -/
def strLower (s : String) : String := String.mk (s.data.map Char.toLower)

/-- Python substring test: pat in hay. -/
def containsStr (hay pat : String) : Bool :=
  hay.data.tails.any (fun t => pat.data.isPrefixOf t)

/-- Python any(char.isdigit() for char in s) (ASCII digits). -/
def anyDigit (s : String) : Bool := s.data.any Char.isDigit

/-- Helper for digitRuns: accumulates the current run of digits (reversed). -/
def digitRunsAux : List Char → List Char → List (List Char)
  | [], acc => if acc.isEmpty then [] else [acc.reverse]
  | c :: cs, acc =>
    if c.isDigit then digitRunsAux cs (c :: acc)
    else if acc.isEmpty then digitRunsAux cs acc
    else acc.reverse :: digitRunsAux cs []

/-- Python re.findall applied with the digit-run pattern: the maximal runs of
consecutive digit characters of s, in order of appearance. -/
def digitRuns (s : String) : List String :=
  (digitRunsAux s.data []).map (fun l => String.mk l)

/-- Python int() on a string of digits. -/
def digitsToNat (s : String) : Nat :=
  s.data.foldl (fun n c => 10 * n + (c.toNat - 48)) 0

/-! ### Data model: JSON-ish values, messages, tool calls -/

/-- A Python/JSON value as it flows through tool arguments: an integer, a
string, or None (also standing for an absent key via dict.get). -/
inductive Value where
  | int (n : Int)
  | str (s : String)
  | null
deriving DecidableEq, Repr

/-- Python str() of a value, as used by f-string interpolation. -/
def valueStr : Value → String
  | .int n => toString n
  | .str s => s
  | .null => "None"

/-- Python dict.get(key): the bound value, or None when the key is absent. -/
def getArg : List (String × Value) → String → Value
  | [], _ => .null
  | (k, v) :: rest, key => if k = key then v else getArg rest key

inductive Role where
  | user
  | assistant
  | tool
deriving DecidableEq, Repr

/-- One entry of the tool_calls list of an assistant message. -/
structure ToolCall where
  id : String
  name : String
  args : List (String × Value)
deriving DecidableEq, Repr

/-- A conversation message (HumanMessage / AIMessage / ToolMessage). -/
structure Message where
  role : Role
  content : String
  toolCalls : List ToolCall := []
deriving DecidableEq, Repr

/-! ### MockLLM (agent_demo.py, class MockLLM inside create_agent) -/

/-- Lowercased content of the last message, or the empty string when the
sequence is empty (messages[-1].content.lower() if messages else ""). -/
def lastLower (messages : List Message) : String :=
  match messages.getLast? with
  | some m => strLower m.content
  | none => ""

/-- Content of the capability summary returned on the help/what patterns. -/
def helpContent : String :=
  "I can help you with mathematical operations! Try asking me to add or multiply numbers."

/-- Content of the generic capability message returned when no pattern fires. -/
def genericContent : String :=
  "I can help you with adding and multiplying numbers. Try saying \x27add 5 and 3\x27 or \x27multiply 4 by 6\x27!"

/-- MockLLM.invoke from agent_demo.py: keyword-pattern responder over the
lowercased last message. -/
def mockInvoke (messages : List Message) : Message :=
  let low := lastLower messages
  if containsStr low "help" || containsStr low "what" then
    { role := .assistant, content := helpContent }
  else if containsStr low "add" && anyDigit low then
    match digitRuns low with
    | n0 :: n1 :: _ =>
      { role := .assistant
        content := "I\x27ll add " ++ n0 ++ " and " ++ n1 ++ " for you."
        toolCalls := [⟨"call_add", "add_numbers",
          [("a", .int (digitsToNat n0)), ("b", .int (digitsToNat n1))]⟩] }
    | _ => { role := .assistant, content := genericContent }
  else if containsStr low "multiply" && anyDigit low then
    match digitRuns low with
    | n0 :: n1 :: _ =>
      { role := .assistant
        content := "I\x27ll multiply " ++ n0 ++ " by " ++ n1 ++ " for you."
        toolCalls := [⟨"call_multiply", "multiply_numbers",
          [("x", .int (digitsToNat n0)), ("y", .int (digitsToNat n1))]⟩] }
    | _ => { role := .assistant, content := genericContent }
  else { role := .assistant, content := genericContent }

/-! ### Tool bodies of agent_demo.py (registered in tools = [...]) -/

/-- Tool add_numbers of agent_demo.py. -/
def add_numbers (a b : Int) : Int := a + b

/-- Tool multiply_numbers of agent_demo.py. -/
def multiply_numbers (x y : Int) : Int := x * y

/-! ### The LangGraph wiring of create_agent (agent_demo.py)

The workflow is: entry point "assistant" (call_model, which invokes the
selected model on the message history and appends the response);
tools_condition routes to "tools" when the response carries tool calls and
to END otherwise; the "tools" node (ToolNode) executes each pending tool
call and appends one tool message per call, then an unconditional edge
returns to "assistant". No iteration counter appears anywhere. -/

/-- ToolNode execution of one tool call from the tools list
[add_numbers, multiply_numbers, get_help]: the content of the resulting
tool message is str() of the returned value. -/
def runTool (tc : ToolCall) : String :=
  if tc.name = "add_numbers" then
    match getArg tc.args "a", getArg tc.args "b" with
    | .int a, .int b => toString (add_numbers a b)
    | _, _ => "Error: invalid arguments"
  else if tc.name = "multiply_numbers" then
    match getArg tc.args "x", getArg tc.args "y" with
    | .int x, .int y => toString (multiply_numbers x y)
    | _, _ => "Error: invalid arguments"
  else if tc.name = "get_help" then
    "capabilities text"
  else "Error: unknown tool"

/-- The tool messages ToolNode appends for the pending calls, in order. -/
def toolMessages (tcs : List ToolCall) : List Message :=
  tcs.map (fun tc => { role := .tool, content := runTool tc })

/-- Orchestration phase: about to invoke the model, about to execute the
pending tool calls, or finished. -/
inductive Phase where
  | awaitingModel
  | awaitingTools
  | done
deriving DecidableEq, Repr

/-- State of one Orchestrator turn: the thread history plus the phase. -/
structure OrchState where
  messages : List Message
  phase : Phase
deriving DecidableEq, Repr

/-- One transition of the compiled graph of create_agent: the assistant node
appends the model response and tools_condition picks the next node; the
tools node appends the tool messages for the calls of the last message and
returns to the assistant node. -/
def orchStep (invoke : List Message → Message) (s : OrchState) : OrchState :=
  match s.phase with
  | .awaitingModel =>
    let response := invoke s.messages
    { messages := s.messages ++ [response]
      phase := if response.toolCalls.isEmpty then .done else .awaitingTools }
  | .awaitingTools =>
    let pending := match s.messages.getLast? with
      | some m => m.toolCalls
      | none => []
    { messages := s.messages ++ toolMessages pending, phase := .awaitingModel }
  | .done => s

/-- n transitions of the graph. -/
def orchRun (invoke : List Message → Message) : Nat → OrchState → OrchState
  | 0, s => s
  | n + 1, s => orchRun invoke n (orchStep invoke s)

/-! ### MCP server (mcp_server_standalone.py) -/

/-- One property of a tool input schema: field name, declared type,
description. -/
structure SchemaProperty where
  field : String
  type : String
  description : String
deriving DecidableEq, Repr

/-- A tool spec as returned by handle_list_tools. -/
structure ToolSpec where
  name : String
  description : String
  properties : List SchemaProperty
  required : List String
deriving DecidableEq, Repr

/-- handle_list_tools of mcp_server_standalone.py (identical in
mcp_server.py): the static four-tool catalog. -/
def handle_list_tools : List ToolSpec :=
  [ { name := "add_numbers"
      description := "Add two numbers together"
      properties := [⟨"a", "integer", "First number to add"⟩,
                     ⟨"b", "integer", "Second number to add"⟩]
      required := ["a", "b"] },
    { name := "multiply_numbers"
      description := "Multiply two numbers together"
      properties := [⟨"x", "integer", "First number to multiply"⟩,
                     ⟨"y", "integer", "Second number to multiply"⟩]
      required := ["x", "y"] },
    { name := "get_agent_help"
      description := "Get information about the agent\x27s capabilities"
      properties := []
      required := [] },
    { name := "get_system_info"
      description := "Get information about the MCP server and agent system"
      properties := []
      required := [] } ]

/-- Python dynamic semantics of a + b for the values that can arrive as
JSON tool arguments: integer addition, string concatenation, and a
TypeError otherwise. This is the body of add_numbers_impl, which carries
int annotations but never checks them. -/
def add_numbers_impl : Value → Value → Except String Value
  | .int a, .int b => .ok (.int (a + b))
  | .str s, .str t => .ok (.str (s ++ t))
  | _, _ => .error "unsupported operand type(s) for +"

/-- Python s * n string repetition (empty for a non-positive count). -/
def strRepeat (s : String) : Int → String
  | .ofNat n => String.join (List.replicate n s)
  | .negSucc _ => ""

/-- Python dynamic semantics of x * y: integer multiplication, string
repetition by an integer, and a TypeError otherwise. This is the body of
multiply_numbers_impl. -/
def multiply_numbers_impl : Value → Value → Except String Value
  | .int x, .int y => .ok (.int (x * y))
  | .str s, .int n => .ok (.str (strRepeat s n))
  | .int n, .str s => .ok (.str (strRepeat s n))
  | _, _ => .error "cannot multiply sequence by non-int"

/-- get_help_impl of mcp_server_standalone.py (the stripped help block). -/
def get_help_impl : String :=
  "🤖 I\x27m an autonomous agent with the following capabilities:\n\n📊 Mathematical Operations:\n- Add two numbers: \"add 5 and 3\"\n- Multiply two numbers: \"multiply 4 by 6\"\n\n🔮 Future Capabilities (coming soon):\n- GitHub repository management\n- Issue tracking and creation\n- Pull request operations\n\nJust ask me to perform any of these operations!"

/-- Environment-derived server configuration (MockLLMConfig plus the
interpreter facts interpolated into get_system_info / agent://config). -/
structure ServerConfig where
  provider : String
  ollama_model : String
  gemini_model : String
  python_version : String
  working_directory : String
deriving DecidableEq, Repr

/-- The text block built by the get_system_info branch. -/
def systemInfoText (cfg : ServerConfig) : String :=
  "🏗️ GitHub MCP Agent System Information:\n\n📋 Configuration:\n- LLM Provider: " ++ cfg.provider ++
  "\n- Ollama Model: " ++ cfg.ollama_model ++
  "\n- Gemini Model: " ++ cfg.gemini_model ++
  "\n- Python Version: " ++ cfg.python_version ++
  "\n- Working Directory: " ++ cfg.working_directory ++
  "\n\n🔧 Available Tools:\n- Mathematical operations (add, multiply)\n- System information and help\n- Future: GitHub repository management\n\n🌐 MCP Integration:\n- Server Status: Active ✅\n- Protocol: Model Context Protocol\n- Client: Claude Desktop\n- Connection: Established"

/-- A text content item of a tool-call response. -/
structure TextContent where
  text : String
deriving DecidableEq, Repr

/-- Whether a response text is error-flagged (the ❌ Error convention the
handlers use for application-level failures). -/
def errorFlagged (t : TextContent) : Bool := containsStr t.text "❌ Error"

/-- handle_call_tool of mcp_server_standalone.py, with the two arithmetic
handlers abstracted as parameters so that non-invocation of a handler is
expressible. The surrounding try/except shows up as the match on the
handler result: a raised handler exception becomes the error text of the
except branch, never a transport fault. -/
def handle_call_tool_gen (addImpl mulImpl : Value → Value → Except String Value)
    (cfg : ServerConfig) (name : String) (args : List (String × Value)) :
    List TextContent :=
  if name = "add_numbers" then
    let a := getArg args "a"
    let b := getArg args "b"
    if a = .null ∨ b = .null then
      [⟨"❌ Error: Both \x27a\x27 and \x27b\x27 parameters are required for addition"⟩]
    else
      match addImpl a b with
      | .ok result =>
        [⟨"🔢 Addition Result: " ++ valueStr a ++ " + " ++ valueStr b ++ " = " ++ valueStr result⟩]
      | .error e => [⟨"❌ Error executing tool \x27" ++ name ++ "\x27: " ++ e⟩]
  else if name = "multiply_numbers" then
    let x := getArg args "x"
    let y := getArg args "y"
    if x = .null ∨ y = .null then
      [⟨"❌ Error: Both \x27x\x27 and \x27y\x27 parameters are required for multiplication"⟩]
    else
      match mulImpl x y with
      | .ok result =>
        [⟨"✖️ Multiplication Result: " ++ valueStr x ++ " × " ++ valueStr y ++ " = " ++ valueStr result⟩]
      | .error e => [⟨"❌ Error executing tool \x27" ++ name ++ "\x27: " ++ e⟩]
  else if name = "get_agent_help" then
    [⟨"🤖 Agent Capabilities:\n" ++ get_help_impl⟩]
  else if name = "get_system_info" then
    [⟨systemInfoText cfg⟩]
  else
    [⟨"❌ Error: Unknown tool \x27" ++ name ++ "\x27"⟩]

/-- handle_call_tool with the real handler bodies plugged in. -/
def handle_call_tool (cfg : ServerConfig) (name : String)
    (args : List (String × Value)) : List TextContent :=
  handle_call_tool_gen add_numbers_impl multiply_numbers_impl cfg name args

/-- The JSON text returned for agent://config (json.dumps with indent=2). -/
def configJson (cfg : ServerConfig) : String :=
  "\x7b\n  \"provider\": \"" ++ cfg.provider ++
  "\",\n  \"ollama_model\": \"" ++ cfg.ollama_model ++
  "\",\n  \"gemini_model\": \"" ++ cfg.gemini_model ++
  "\",\n  \"python_version\": \"" ++ cfg.python_version ++
  "\",\n  \"working_directory\": \"" ++ cfg.working_directory ++
  "\",\n  \"tools_available\": [\n    \"add_numbers\",\n    \"multiply_numbers\",\n    \"get_agent_help\",\n    \"get_system_info\"\n  ]\n\x7d"

/-- The text returned for agent://capabilities (the stripped block). -/
def capabilitiesText : String :=
  "GitHub MCP Agent Capabilities:\n\n🔧 Mathematical Operations:\n- Addition of two integers\n- Multiplication of two integers\n\n🤖 System Operations:\n- Configuration information\n- Help and documentation\n- Status monitoring\n\n🔮 Future Capabilities:\n- GitHub repository management\n- Issue tracking and creation\n- Pull request operations\n- Code analysis and review\n\n🌐 MCP Integration:\n- Full Model Context Protocol support\n- Claude Desktop integration\n- Tool execution and resource access\n- Real-time agent communication"

/-- handle_read_resource of mcp_server_standalone.py: known URIs return
their text; any other URI raises ValueError(f"Unknown resource: ..."),
modelled as the error branch. -/
def handle_read_resource (cfg : ServerConfig) (uri : String) :
    Except String String :=
  if uri = "agent://config" then .ok (configJson cfg)
  else if uri = "agent://capabilities" then .ok capabilitiesText
  else .error ("Unknown resource: " ++ uri)

/-- A protocol-level response envelope: a success payload or a structured
error payload, never an unhandled fault. -/
inductive ProtocolResponse where
  | success (text : String)
  | failure (message : String)
deriving DecidableEq, Repr

/-- Modelled from the spec: the Protocol Server envelope layer around the
resource handler lives in the mcp library (server.read_resource dispatch),
not in this repository; per the spec, application-level failures raised by
a handler are converted to a structured error payload at that boundary and
never unwind past the Protocol Server. -/
def readResource (cfg : ServerConfig) (uri : String) : ProtocolResponse :=
  match handle_read_resource cfg uri with
  | .ok t => .success t
  | .error e => .failure e

/-- A concrete configuration used to instantiate closed evaluations. -/
def demoConfig : ServerConfig :=
  { provider := "ollama", ollama_model := "llama2", gemini_model := "gemini-pro",
    python_version := "3.11.0", working_directory := "/srv/agent" }

/-- A Model Invoker stub that emits a tool call on every invocation. -/
def stubInvoke (_ : List Message) : Message :=
  { role := .assistant
    content := "calling a tool"
    toolCalls := [⟨"call_add", "add_numbers", [("a", .int 1), ("b", .int 1)]⟩] }

/-- Initial orchestration state for the stub-invoker run: one user message,
about to invoke the model. -/
def loopInit : OrchState :=
  { messages := [{ role := .user, content := "loop" }], phase := .awaitingModel }

/-- Initial orchestration state for the end-to-end addition scenario. -/
def e2eInit : OrchState :=
  { messages := [{ role := .user, content := "Add 15 and 27" }], phase := .awaitingModel }

end AgentMakr

namespace AgentMakr

/-! ### Supporting lemmas -/

/-- A character list without digits produces no digit runs. -/
theorem digitRunsAux_nil_of_no_digit :
    ∀ (cs : List Char), (∀ c ∈ cs, c.isDigit = false) → digitRunsAux cs [] = [] := by
  intro cs
  induction cs with
  | nil => intro _; rfl
  | cons c cs ih =>
    intro h
    have hc : c.isDigit = false := h c (List.mem_cons_self c cs)
    have hrest : ∀ x ∈ cs, x.isDigit = false := fun x hx => h x (List.mem_cons_of_mem c hx)
    simp [digitRunsAux, hc, ih hrest]

/-- If a string has no digit character, it has no digit runs. -/
theorem digitRuns_nil_of_anyDigit_false (s : String) (h : anyDigit s = false) :
    digitRuns s = [] := by
  have hall : ∀ c ∈ s.data, c.isDigit = false := by
    intro c hc
    by_contra hne
    have : s.data.any Char.isDigit = true :=
      List.any_eq_true.mpr ⟨c, hc, by simpa using hne⟩
    rw [anyDigit] at h
    rw [h] at this
    exact Bool.false_ne_true this
  simp [digitRuns, digitRunsAux_nil_of_no_digit s.data hall]

/-- Looking a key up after prepending a null binding for a field that is
already null-or-absent gives the same value as looking it up in the
original arguments. -/
theorem getArg_cons_null (args : List (String × Value)) (k : String)
    (h : getArg args k = Value.null) (key : String) :
    getArg ((k, Value.null) :: args) key = getArg args key := by
  by_cases hk : k = key
  · subst hk
    simp [getArg, h]
  · simp [getArg, hk]

/-- A step of the stub-invoker run out of a non-terminal phase stays in a
non-terminal phase: the model step always carries a tool call and the tools
step returns to the model. -/
theorem orchStep_stub_alive (s : OrchState)
    (h : s.phase = Phase.awaitingModel ∨ s.phase = Phase.awaitingTools) :
    (orchStep stubInvoke s).phase = Phase.awaitingModel ∨
      (orchStep stubInvoke s).phase = Phase.awaitingTools := by
  obtain ⟨msgs, ph⟩ := s
  rcases h with h | h <;> simp_all [orchStep, stubInvoke]

/-- Any number of steps of the stub-invoker run from a non-terminal phase
ends in a non-terminal phase. -/
theorem orchRun_stub_alive :
    ∀ (n : Nat) (s : OrchState),
      (s.phase = Phase.awaitingModel ∨ s.phase = Phase.awaitingTools) →
      (orchRun stubInvoke n s).phase = Phase.awaitingModel ∨
        (orchRun stubInvoke n s).phase = Phase.awaitingTools := by
  intro n
  induction n with
  | zero => intro s h; exact h
  | succ n ih => intro s h; exact ih (orchStep stubInvoke s) (orchStep_stub_alive s h)

end AgentMakr

namespace AgentMakr

/-! ### Claim theorems -/

/-- C1: with a Model Invoker stub that emits a tool call on every invocation,
the compiled graph of create_agent never reaches the Done phase: after any
number of transitions it is still awaiting the model or awaiting tools. This
witnesses that the source loops unboundedly instead of forcing Done at a
configured iteration maximum as the claim requires. -/
theorem stub_invoker_never_done (n : Nat) :
    (orchRun stubInvoke n loopInit).phase = Phase.awaitingModel ∨
      (orchRun stubInvoke n loopInit).phase = Phase.awaitingTools :=
  orchRun_stub_alive n loopInit (Or.inl rfl)

/-- C2: for all integers a and b, callTool on add_numbers reports a + b and
callTool on multiply_numbers reports a * b, as non-error text responses; the
handlers are pure, so the calls are deterministic with no side effect beyond
the reported value. -/
theorem call_tool_arithmetic (cfg : ServerConfig) (a b : Int) :
    handle_call_tool cfg "add_numbers" [("a", .int a), ("b", .int b)]
        = [⟨"🔢 Addition Result: " ++ toString a ++ " + " ++ toString b ++ " = " ++ toString (a + b)⟩]
      ∧ handle_call_tool cfg "multiply_numbers" [("x", .int a), ("y", .int b)]
        = [⟨"✖️ Multiplication Result: " ++ toString a ++ " × " ++ toString b ++ " = " ++ toString (a * b)⟩] :=
  ⟨rfl, rfl⟩

/-- C7: handle_list_tools returns exactly the four ToolSpecs add_numbers
(required a, b, both integer), multiply_numbers (required x, y, both
integer), get_agent_help (no required fields) and get_system_info (no
required fields); it is a constant of the process, so the result is the same
regardless of call order or prior calls. -/
theorem list_tools_catalog :
    handle_list_tools.map ToolSpec.name
        = ["add_numbers", "multiply_numbers", "get_agent_help", "get_system_info"]
      ∧ handle_list_tools.map (fun t => (t.required, t.properties.map (fun p => (p.field, p.type))))
        = [(["a", "b"], [("a", "integer"), ("b", "integer")]),
           (["x", "y"], [("x", "integer"), ("y", "integer")]),
           ([], []), ([], [])] :=
  ⟨rfl, rfl⟩

/-- C9: for every ordered sequence of input Messages, including the empty
sequence, MockLLM.invoke returns exactly one assistant Message; it is a
total pure function, so it never raises and does not mutate its input. -/
theorem mock_invoke_one_assistant_message (messages : List Message) :
    (mockInvoke messages).role = Role.assistant := by
  unfold mockInvoke
  dsimp only
  repeat' split <;> try rfl

/-- C10: an argument field that is present but bound to a null value is
treated identically to an absent field: prepending a null binding for any
field that is otherwise null-or-absent changes no call result, and any
add_numbers or multiply_numbers call whose required field (either one) is
null-or-absent returns the same error-flagged missing-parameter result;
both hold for every choice of handler bodies, so no handler is invoked. -/
theorem null_argument_treated_as_missing
    (f g : Value → Value → Except String Value) (cfg : ServerConfig) :
    (∀ (name : String) (args : List (String × Value)) (k : String),
      getArg args k = Value.null →
      handle_call_tool_gen f g cfg name ((k, Value.null) :: args)
        = handle_call_tool_gen f g cfg name args)
  ∧ (∀ (args : List (String × Value)),
      getArg args "a" = Value.null ∨ getArg args "b" = Value.null →
      handle_call_tool_gen f g cfg "add_numbers" args
        = [⟨"❌ Error: Both \x27a\x27 and \x27b\x27 parameters are required for addition"⟩])
  ∧ (∀ (args : List (String × Value)),
      getArg args "x" = Value.null ∨ getArg args "y" = Value.null →
      handle_call_tool_gen f g cfg "multiply_numbers" args
        = [⟨"❌ Error: Both \x27x\x27 and \x27y\x27 parameters are required for multiplication"⟩]) := by
  refine ⟨?_, ?_, ?_⟩
  · intro name args k h
    simp only [handle_call_tool_gen, getArg_cons_null args k h]
  · intro args h
    rcases h with h | h <;> simp [handle_call_tool_gen, h]
  · intro args h
    rcases h with h | h <;> simp [handle_call_tool_gen, h]

/-- C10 witness: binding a to null with b present gives the same result as
omitting a, exercised with the real handler bodies. -/
theorem null_argument_treated_as_missing_witness :
    handle_call_tool_gen add_numbers_impl multiply_numbers_impl demoConfig
        "add_numbers" [("a", Value.null), ("b", Value.int 5)]
      = handle_call_tool_gen add_numbers_impl multiply_numbers_impl demoConfig
        "add_numbers" [("b", Value.int 5)] :=
  (null_argument_treated_as_missing add_numbers_impl multiply_numbers_impl demoConfig).1
    "add_numbers" [("b", Value.int 5)] "a" rfl

/-- C4 counterexample: calling add_numbers with the declared integer fields
bound to strings does not return an error identifying the field; the handler
is invoked and its string concatenation is reported as a non-error result. -/
theorem type_mismatch_reaches_handler :
    handle_call_tool demoConfig "add_numbers" [("a", .str "foo"), ("b", .str "bar")]
        = [⟨"🔢 Addition Result: foo + bar = foobar"⟩]
      ∧ errorFlagged ⟨"🔢 Addition Result: foo + bar = foobar"⟩ = false :=
  ⟨rfl, by decide⟩

/-- C4 amended: the dispatcher performs no type validation against the
declared schema; a present, non-null field of the wrong declared type is
passed to the handler unchanged, and when the handler can process it (two
strings for add_numbers) the result is a non-error response built from the
handler output. -/
theorem string_arguments_passed_to_handler (cfg : ServerConfig) (s t : String) :
    handle_call_tool cfg "add_numbers" [("a", .str s), ("b", .str t)]
      = [⟨"🔢 Addition Result: " ++ s ++ " + " ++ t ++ " = " ++ (s ++ t)⟩] :=
  rfl

/-- C3 amended: starting from the thread holding only the user Message
"Add 15 and 27", the run reaches AwaitingTools with exactly one
ToolCallRequest add_numbers(a 15, b 27), the tool step appends the tool
Message "42", and the next model step reaches Done with the Thread holding
exactly 4 Messages; the final assistant Message is the MockLLM generic
capability text, which does not reflect 42. -/
theorem e2e_add_15_27_run :
    orchRun mockInvoke 1 e2eInit =
      { messages := [{ role := .user, content := "Add 15 and 27" },
                     { role := .assistant, content := "I\x27ll add 15 and 27 for you.",
                       toolCalls := [⟨"call_add", "add_numbers",
                         [("a", .int 15), ("b", .int 27)]⟩] }],
        phase := .awaitingTools }
  ∧ orchRun mockInvoke 2 e2eInit =
      { messages := [{ role := .user, content := "Add 15 and 27" },
                     { role := .assistant, content := "I\x27ll add 15 and 27 for you.",
                       toolCalls := [⟨"call_add", "add_numbers",
                         [("a", .int 15), ("b", .int 27)]⟩] },
                     { role := .tool, content := "42" }],
        phase := .awaitingModel }
  ∧ orchRun mockInvoke 3 e2eInit =
      { messages := [{ role := .user, content := "Add 15 and 27" },
                     { role := .assistant, content := "I\x27ll add 15 and 27 for you.",
                       toolCalls := [⟨"call_add", "add_numbers",
                         [("a", .int 15), ("b", .int 27)]⟩] },
                     { role := .tool, content := "42" },
                     { role := .assistant, content := genericContent }],
        phase := .done } :=
  ⟨rfl, rfl, rfl⟩

/-- C3 counterexample: the end-to-end addition run does reach Done with 4
Messages, but the final assistant Message is the generic capability message
and its content does not contain 42, contradicting the claim that the final
content reflects 42. -/
theorem e2e_final_message_ignores_result :
    (orchRun mockInvoke 3 e2eInit).phase = Phase.done
  ∧ (orchRun mockInvoke 3 e2eInit).messages.length = 4
  ∧ (orchRun mockInvoke 3 e2eInit).messages.getLast?
      = some { role := .assistant, content := genericContent }
  ∧ containsStr genericContent "42" = false :=
  ⟨rfl, rfl, rfl, by decide⟩

/-- C5: for every uri that is neither agent://config nor
agent://capabilities, reading the resource yields a structured failure
response naming the unknown resource; the handler error is converted at the
Protocol Server boundary and never unwinds as an unhandled fault. -/
theorem read_resource_unknown_uri (cfg : ServerConfig) (uri : String)
    (h1 : uri ≠ "agent://config") (h2 : uri ≠ "agent://capabilities") :
    readResource cfg uri = ProtocolResponse.failure ("Unknown resource: " ++ uri) := by
  simp [readResource, handle_read_resource, h1, h2]

/-- C5 witness: the unknown-resource theorem applied at agent://unknown. -/
theorem read_resource_unknown_uri_witness :
    readResource demoConfig "agent://unknown"
      = ProtocolResponse.failure "Unknown resource: agent://unknown" :=
  read_resource_unknown_uri demoConfig "agent://unknown" (by decide) (by decide)

/-- C8: whenever a required field (a or b) is missing from the arguments of
an add_numbers call (absent or null), the response is an error-flagged text
result returned as an ordinary successful response value, identical for
every choice of handler bodies, so the handler is not invoked; the embedding
is a pure function of the single call, so no independent call is affected. -/
theorem missing_required_field_error
    (f g : Value → Value → Except String Value) (cfg : ServerConfig)
    (args : List (String × Value))
    (h : getArg args "a" = Value.null ∨ getArg args "b" = Value.null) :
    handle_call_tool_gen f g cfg "add_numbers" args
        = [⟨"❌ Error: Both \x27a\x27 and \x27b\x27 parameters are required for addition"⟩]
      ∧ errorFlagged ⟨"❌ Error: Both \x27a\x27 and \x27b\x27 parameters are required for addition"⟩
        = true := by
  refine ⟨?_, by decide⟩
  rcases h with h | h <;> simp [handle_call_tool_gen, h]

/-- C8 witness: the missing-field theorem applied at arguments holding only
b = 5, so the required field a is absent. -/
theorem missing_required_field_error_witness :
    handle_call_tool_gen add_numbers_impl multiply_numbers_impl demoConfig
        "add_numbers" [("b", Value.int 5)]
      = [⟨"❌ Error: Both \x27a\x27 and \x27b\x27 parameters are required for addition"⟩] :=
  (missing_required_field_error add_numbers_impl multiply_numbers_impl demoConfig
    [("b", Value.int 5)] (Or.inl rfl)).1

/-- C6: MockLLM.invoke on the lowercased last message behaves by keyword
pattern, the cases taken in order: help/what gives the capability summary
with no tool call; otherwise add with at least two numeric tokens gives
exactly one add_numbers ToolCallRequest whose arguments are the first two
numeric tokens in order of appearance; otherwise multiply likewise gives one
multiply_numbers ToolCallRequest; every other message gives the generic
capability message with no tool call. -/
theorem mock_invoke_keyword_patterns (messages : List Message) :
    ((containsStr (lastLower messages) "help" || containsStr (lastLower messages) "what") = true →
      mockInvoke messages = { role := .assistant, content := helpContent })
  ∧ (∀ n0 n1 rest,
      (containsStr (lastLower messages) "help" || containsStr (lastLower messages) "what") = false →
      containsStr (lastLower messages) "add" = true →
      digitRuns (lastLower messages) = n0 :: n1 :: rest →
      mockInvoke messages =
        { role := .assistant
          content := "I\x27ll add " ++ n0 ++ " and " ++ n1 ++ " for you."
          toolCalls := [⟨"call_add", "add_numbers",
            [("a", .int (digitsToNat n0)), ("b", .int (digitsToNat n1))]⟩] })
  ∧ (∀ n0 n1 rest,
      (containsStr (lastLower messages) "help" || containsStr (lastLower messages) "what") = false →
      containsStr (lastLower messages) "add" = false →
      containsStr (lastLower messages) "multiply" = true →
      digitRuns (lastLower messages) = n0 :: n1 :: rest →
      mockInvoke messages =
        { role := .assistant
          content := "I\x27ll multiply " ++ n0 ++ " by " ++ n1 ++ " for you."
          toolCalls := [⟨"call_multiply", "multiply_numbers",
            [("x", .int (digitsToNat n0)), ("y", .int (digitsToNat n1))]⟩] })
  ∧ ((containsStr (lastLower messages) "help" || containsStr (lastLower messages) "what") = false →
      ((digitRuns (lastLower messages)).length < 2 ∨
        (containsStr (lastLower messages) "add" = false ∧
         containsStr (lastLower messages) "multiply" = false)) →
      mockInvoke messages = { role := .assistant, content := genericContent }) := by
  refine ⟨?_, ?_, ?_, ?_⟩
  · intro h
    simp [mockInvoke, h]
  · intro n0 n1 rest h1 h2 h3
    have hd : anyDigit (lastLower messages) = true := by
      cases hdig : anyDigit (lastLower messages) with
      | false =>
        rw [digitRuns_nil_of_anyDigit_false _ hdig] at h3
        exact absurd h3 (List.cons_ne_nil n0 (n1 :: rest)).symm
      | true => rfl
    simp [mockInvoke, h1, h2, hd, h3]
  · intro n0 n1 rest h1 h2 h3 h4
    have hd : anyDigit (lastLower messages) = true := by
      cases hdig : anyDigit (lastLower messages) with
      | false =>
        rw [digitRuns_nil_of_anyDigit_false _ hdig] at h4
        exact absurd h4 (List.cons_ne_nil n0 (n1 :: rest)).symm
      | true => rfl
    simp [mockInvoke, h1, h2, h3, hd, h4]
  · intro h1 hcase
    rcases hcase with hlen | ⟨hadd, hmul⟩
    · rcases hd : digitRuns (lastLower messages) with _ | ⟨x, _ | ⟨y, tl⟩⟩
      · simp [mockInvoke, h1, hd]
      · simp [mockInvoke, h1, hd]
      · rw [hd] at hlen
        simp at hlen
        omega
    · simp [mockInvoke, h1, hadd, hmul]

/-- C6 witness: the add case of the keyword-pattern theorem applied to the
message "add 3 and 4". -/
theorem mock_invoke_keyword_patterns_witness :
    mockInvoke [{ role := .user, content := "add 3 and 4" }] =
      { role := .assistant
        content := "I\x27ll add " ++ "3" ++ " and " ++ "4" ++ " for you."
        toolCalls := [⟨"call_add", "add_numbers",
          [("a", .int (digitsToNat "3")), ("b", .int (digitsToNat "4"))]⟩] } :=
  (mock_invoke_keyword_patterns [{ role := .user, content := "add 3 and 4" }]).2.1
    "3" "4" [] (by decide) (by decide) (by decide)

end AgentMakr
